import Mathlib

/-!
Verification of the template resolver in src/src/llm/prompts.py.

The module has three functions:
  * `_load_template` reads `templates/template_<name>.txt` and logs the outcome;
  * `_extract_input_variables` runs Python's `re.findall` with the lazy
    pattern on the template text and returns the captured groups;
  * `get_prompt` dispatches on the truthiness of its two optional arguments
    and wraps the resolved template into a `ChatPromptTemplate`.

The filesystem is modelled as a function from paths to `Except ReadError String`
(`notFound` stands for Python's `FileNotFoundError`, `ioError` for every other
exception caught by the bare `except Exception` clause).  Logging is modelled by
returning the list of log entries emitted during a call.
-/

deriving instance DecidableEq for Except

namespace Prompts

/-- Result of Python's `open`/`read` on a path: `notFound` models
`FileNotFoundError`, `ioError` models any other exception (its string is the
exception message). -/
inductive ReadError : Type
  | notFound : ReadError
  | ioError : String → ReadError
deriving DecidableEq

/-- A filesystem: what `open(path).read()` returns for each path. -/
structure FS : Type where
  read : String → Except ReadError String

/-- Severity of a log record (`logging.info` / `logging.error`). -/
inductive LogLevel : Type
  | info : LogLevel
  | error : LogLevel
deriving DecidableEq

/-- One record emitted through the `logging` module. -/
structure LogEntry : Type where
  level : LogLevel
  msg : String
deriving DecidableEq

/-- `TEMPLATES_ROOT_PATH = "templates"` from the source. -/
def TEMPLATES_ROOT_PATH : String := "templates"

/-- `os.path.join(a, b)` for two POSIX path components: if `b` is absolute it
wins; if `a` is empty or ends with the separator they are concatenated;
otherwise a separator is inserted. -/
def os_path_join (a b : String) : String :=
  if b.data.head? = some '/' then b
  else if a.data = [] ∨ a.data.getLast? = some '/' then a ++ b
  else a ++ ("/") ++ b

/-- The path `_load_template` reads for a given name:
`os.path.join(TEMPLATES_ROOT_PATH, f"template_\x7btemplate_name\x7d.txt")`. -/
def templatePath (template_name : String) : String :=
  os_path_join TEMPLATES_ROOT_PATH (("template_") ++ template_name ++ (".txt"))

/-- `_load_template` from the source: read the file at `templatePath`, log an
info record on success; on `FileNotFoundError` or any other exception log an
error record and re-raise the same exception. -/
def _load_template (fs : FS) (template_name : String) :
    Except ReadError String × List LogEntry :=
  match fs.read (templatePath template_name) with
  | Except.ok template =>
      (Except.ok template,
        [⟨LogLevel.info, ("Template ") ++ template_name ++ (" loaded successfully.")⟩])
  | Except.error ReadError.notFound =>
      (Except.error ReadError.notFound,
        [⟨LogLevel.error, ("Template file not found: ") ++ templatePath template_name⟩])
  | Except.error (ReadError.ioError e) =>
      (Except.error (ReadError.ioError e),
        [⟨LogLevel.error, ("Error loading template ") ++ template_name ++ (": ") ++ e⟩])

/-- Lazy search for the closing brace, as the regex fragment `(.*?)\}` does
from a fixed starting point: succeed at the first `}` and return the inner
characters together with the rest of the input; fail if a newline (which `.`
does not match) or the end of the input comes first. -/
def findCloseBrace : List Char → Option (List Char × List Char)
  | [] => none
  | c :: rest =>
    if c = '}' then some ([], rest)
    else if c = '\n' then none
    else
      match findCloseBrace rest with
      | some (inner, rest2) => some (c :: inner, rest2)
      | none => none

/-- One scanning pass of `re.findall` for a lazy brace pattern, parameterised
by the close-brace search (`fuel` bounds the recursion; it is always called
with the length of the input, which the congruence lemma below shows is
enough).  At every position: if the character is `{` and a closing brace is
found, record the capture and resume after it; otherwise move one character
right. -/
def scanF (close : List Char → Option (List Char × List Char)) :
    Nat → List Char → List String
  | _, [] => []
  | 0, _ :: _ => []
  | fuel + 1, c :: rest =>
    if c = '{' then
      match close rest with
      | some (inner, rest2) => String.mk inner :: scanF close fuel rest2
      | none => scanF close fuel rest
    else scanF close fuel rest

/-- `re.findall(r'\x7b(.*?)\x7d', ·)` on a list of characters. -/
def reFindall (l : List Char) : List String :=
  scanF findCloseBrace l.length l

/-- `_extract_input_variables` from the source:
`re.findall(r'\x7b(.*?)\x7d', template)`. -/
def _extract_input_variables (template : String) : List String :=
  reFindall template.data

/-- Second definition for the refinement claim about placeholder extraction,
written from the specification's words rather than from the code: a
placeholder is "every minimal span delimited by `\x7b` and `\x7d`" containing
"any characters, non-greedy, possibly empty".  It is the same lazy scan but
the close-brace search may cross any character, newlines included. -/
def specCloseBrace : List Char → Option (List Char × List Char)
  | [] => none
  | c :: rest =>
    if c = '}' then some ([], rest)
    else
      match specCloseBrace rest with
      | some (inner, rest2) => some (c :: inner, rest2)
      | none => none

/-- The inner texts of the minimal brace-delimited spans of a template, in
left-to-right scan order, per the specification's words (see
`specCloseBrace`). -/
def spec_minimal_spans (template : String) : List String :=
  scanF specCloseBrace template.data.length template.data

/-- langchain's `PromptTemplate`: the template text and the input variables it
was constructed with. -/
structure PromptTemplate : Type where
  template : String
  input_variables : List String
deriving DecidableEq

/-- langchain's `HumanMessagePromptTemplate`: a single user-turn wrapper. -/
structure HumanMessagePromptTemplate : Type where
  prompt : PromptTemplate
deriving DecidableEq

/-- langchain's `ChatPromptTemplate.from_messages`: the list of message
templates. -/
structure ChatPromptTemplate : Type where
  messages : List HumanMessagePromptTemplate
deriving DecidableEq

/-- The exceptions `get_prompt` can raise: `invalidArgument` models the
`ValueError`, the other two are the taxonomy of re-raised load failures
(`FileNotFoundError`, any other exception). -/
inductive PromptError : Type
  | invalidArgument : String → PromptError
  | notFound : PromptError
  | ioError : String → PromptError
deriving DecidableEq

/-- A load failure surfaces to `get_prompt`'s caller unchanged. -/
def liftReadError : ReadError → PromptError
  | ReadError.notFound => PromptError.notFound
  | ReadError.ioError m => PromptError.ioError m

/-- Python truthiness of an optional string argument defaulting to `None`:
`None` and the empty string are falsy. -/
def truthy : Option String → Bool
  | none => false
  | some s => decide (s ≠ (""))

/-- The `ChatPromptTemplate` `get_prompt` builds once the template text is
resolved: a single human message whose prompt holds the template and its
extracted input variables. -/
def mkChatPrompt (template : String) : ChatPromptTemplate :=
  ⟨[⟨⟨template, _extract_input_variables template⟩⟩]⟩

/-- `get_prompt` from the source.  `if template_name:` loads from the file
(propagating any load failure together with the log records already emitted);
`elif not template:` raises the `ValueError`; otherwise the literal template
string is used directly. -/
def get_prompt (fs : FS) (template_name : Option String) (template : Option String) :
    Except PromptError ChatPromptTemplate × List LogEntry :=
  if truthy template_name then
    match _load_template fs (template_name.getD ("")) with
    | (Except.ok t, logs) => (Except.ok (mkChatPrompt t), logs)
    | (Except.error e, logs) => (Except.error (liftReadError e), logs)
  else if !(truthy template) then
    (Except.error (PromptError.invalidArgument
      ("Either template_name or template must be provided.")), [])
  else
    (Except.ok (mkChatPrompt (template.getD (""))), [])

/-- A filesystem on which every read fails with `FileNotFoundError`. -/
def fsNone : FS := ⟨fun _ => Except.error ReadError.notFound⟩

/-- Filesystem fixture holding a template file for the empty identifier. -/
def fsEmptyId : FS :=
  ⟨fun p => if p = ("templates/template_.txt") then Except.ok ("FILE")
            else Except.error ReadError.notFound⟩

/-- Filesystem fixture holding the greeting template of the specification. -/
def fsGreet : FS :=
  ⟨fun p => if p = ("templates/template_greet.txt")
            then Except.ok ("Hello {name}, welcome to {place}!")
            else Except.error ReadError.notFound⟩

/-- Filesystem fixture on which every read fails with a non-notFound error. -/
def fsBadRead : FS := ⟨fun _ => Except.error (ReadError.ioError ("disk failure"))⟩

/-- The error-log message `_load_template` emits for each failure kind. -/
def loadFailureLog (name : String) : ReadError → String
  | ReadError.notFound => ("Template file not found: ") ++ templatePath name
  | ReadError.ioError m => ("Error loading template ") ++ name ++ (": ") ++ m

/-- A successful close-brace search splits the input at the first `\x7d`. -/
theorem findCloseBrace_eq :
    ∀ (l i r : List Char), findCloseBrace l = some (i, r) → l = i ++ '}' :: r := by
  intro l
  induction l with
  | nil => intro i r h; exact absurd h (by simp [findCloseBrace])
  | cons c rest ih =>
    intro i r h
    simp only [findCloseBrace] at h
    by_cases hc : c = '}'
    · rw [if_pos hc] at h
      simp only [Option.some.injEq, Prod.mk.injEq] at h
      obtain ⟨hi, hr⟩ := h
      subst hi; subst hr; subst hc
      simp
    · rw [if_neg hc] at h
      by_cases hn : c = '\n'
      · rw [if_pos hn] at h; exact absurd h (by simp)
      · rw [if_neg hn] at h
        cases hrec : findCloseBrace rest with
        | none => rw [hrec] at h; exact absurd h (by simp)
        | some p =>
          obtain ⟨i2, r2⟩ := p
          rw [hrec] at h
          simp only [Option.some.injEq, Prod.mk.injEq] at h
          obtain ⟨hi, hr⟩ := h
          subst hi; subst hr
          simp [ih i2 r2 hrec]

/-- The remainder after a successful close-brace search is shorter than the
input. -/
theorem findCloseBrace_length {l i r : List Char}
    (h : findCloseBrace l = some (i, r)) : r.length < l.length := by
  have he := findCloseBrace_eq l i r h
  subst he
  simp
  omega

/-- A successful spec-side close-brace search splits the input at the first
`\x7d`. -/
theorem specCloseBrace_eq :
    ∀ (l i r : List Char), specCloseBrace l = some (i, r) → l = i ++ '}' :: r := by
  intro l
  induction l with
  | nil => intro i r h; exact absurd h (by simp [specCloseBrace])
  | cons c rest ih =>
    intro i r h
    simp only [specCloseBrace] at h
    by_cases hc : c = '}'
    · rw [if_pos hc] at h
      simp only [Option.some.injEq, Prod.mk.injEq] at h
      obtain ⟨hi, hr⟩ := h
      subst hi; subst hr; subst hc
      simp
    · rw [if_neg hc] at h
      cases hrec : specCloseBrace rest with
      | none => rw [hrec] at h; exact absurd h (by simp)
      | some p =>
        obtain ⟨i2, r2⟩ := p
        rw [hrec] at h
        simp only [Option.some.injEq, Prod.mk.injEq] at h
        obtain ⟨hi, hr⟩ := h
        subst hi; subst hr
        simp [ih i2 r2 hrec]

/-- On newline-free input the code's close-brace search and the spec's
close-brace search agree. -/
theorem findCloseBrace_eq_spec :
    ∀ (l : List Char), '\n' ∉ l → findCloseBrace l = specCloseBrace l := by
  intro l
  induction l with
  | nil => intro _; rfl
  | cons c rest ih =>
    intro h
    have hc : c ≠ '\n' := fun he => h (he ▸ List.mem_cons_self c rest)
    have hrest : '\n' ∉ rest := fun hm => h (List.mem_cons_of_mem c hm)
    simp only [findCloseBrace, specCloseBrace, if_neg hc, ih hrest]

/-- On newline-free input the code's scan and the spec's scan agree, for any
fuel. -/
theorem scanF_spec_eq :
    ∀ (f : Nat) (l : List Char), '\n' ∉ l →
      scanF findCloseBrace f l = scanF specCloseBrace f l := by
  intro f
  induction f with
  | zero => intro l _; cases l <;> rfl
  | succ f ih =>
    intro l h
    cases l with
    | nil => rfl
    | cons c rest =>
      have hrest : '\n' ∉ rest := fun hm => h (List.mem_cons_of_mem c hm)
      simp only [scanF, findCloseBrace_eq_spec rest hrest]
      by_cases hc : c = '{'
      · rw [if_pos hc, if_pos hc]
        cases hrec : specCloseBrace rest with
        | none => exact ih rest hrest
        | some p =>
          obtain ⟨i, r⟩ := p
          have hr : '\n' ∉ r := by
            have := specCloseBrace_eq rest i r hrec
            subst this
            intro hm
            exact hrest (List.mem_append_right i (List.mem_cons_of_mem ('}') hm))
          simp [ih r hr]
      · rw [if_neg hc, if_neg hc]
        exact ih rest hrest

/-- Without a `\x7d` in the input the close-brace search fails. -/
theorem findCloseBrace_none :
    ∀ (l : List Char), '}' ∉ l → findCloseBrace l = none := by
  intro l
  induction l with
  | nil => intro _; rfl
  | cons c rest ih =>
    intro h
    have hc : c ≠ '}' := fun he => h (he ▸ List.mem_cons_self c rest)
    have hrest : '}' ∉ rest := fun hm => h (List.mem_cons_of_mem c hm)
    simp only [findCloseBrace, if_neg hc, ih hrest]
    split <;> rfl

/-- Without a `\x7d` in the input the scan finds nothing, for any fuel. -/
theorem scanF_no_close :
    ∀ (f : Nat) (l : List Char), '}' ∉ l → scanF findCloseBrace f l = [] := by
  intro f
  induction f with
  | zero => intro l _; cases l <;> rfl
  | succ f ih =>
    intro l h
    cases l with
    | nil => rfl
    | cons c rest =>
      have hrest : '}' ∉ rest := fun hm => h (List.mem_cons_of_mem c hm)
      simp only [scanF, findCloseBrace_none rest hrest]
      by_cases hc : c = '{'
      · rw [if_pos hc]; exact ih rest hrest
      · rw [if_neg hc]; exact ih rest hrest

/-- Appending close-brace-free text does not change how the close-brace search
succeeds or fails, beyond the text riding along in the remainder. -/
theorem findCloseBrace_append :
    ∀ (l r : List Char), '}' ∉ r →
      findCloseBrace (l ++ r) =
        (match findCloseBrace l with
         | some (i, r2) => some (i, r2 ++ r)
         | none => none) := by
  intro l
  induction l with
  | nil =>
    intro r h
    simp only [List.nil_append, findCloseBrace, findCloseBrace_none r h]
  | cons c rest ih =>
    intro r h
    simp only [List.cons_append, findCloseBrace, List.append_eq]
    by_cases hc : c = '}'
    · rw [if_pos hc, if_pos hc]
    · rw [if_neg hc, if_neg hc]
      by_cases hn : c = '\n'
      · rw [if_pos hn, if_pos hn]
      · rw [if_neg hn, if_neg hn]
        rw [ih r h]
        cases findCloseBrace rest with
        | none => rfl
        | some p => cases p; rfl

/-- Fuel irrelevance: any two fuels at least the length of the input give the
same scan result. -/
theorem scanF_congr :
    ∀ (f f2 : Nat) (l : List Char), l.length ≤ f → l.length ≤ f2 →
      scanF findCloseBrace f l = scanF findCloseBrace f2 l := by
  intro f
  induction f with
  | zero =>
    intro f2 l h _
    have : l = [] := List.eq_nil_of_length_eq_zero (Nat.le_zero.mp h)
    subst this
    cases f2 <;> rfl
  | succ f ih =>
    intro f2 l h h2
    cases l with
    | nil => cases f2 <;> rfl
    | cons c rest =>
      cases f2 with
      | zero => exact absurd h2 (by simp)
      | succ f2 =>
        have hr : rest.length ≤ f := Nat.le_of_succ_le_succ (by simpa using h)
        have hr2 : rest.length ≤ f2 := Nat.le_of_succ_le_succ (by simpa using h2)
        simp only [scanF]
        by_cases hc : c = '{'
        · rw [if_pos hc, if_pos hc]
          cases hrec : findCloseBrace rest with
          | none => exact ih f2 rest hr hr2
          | some p =>
            obtain ⟨i, r2⟩ := p
            have hlen : r2.length < rest.length := findCloseBrace_length hrec
            simp [ih f2 r2 (Nat.le_of_lt (Nat.lt_of_lt_of_le hlen hr))
              (Nat.le_of_lt (Nat.lt_of_lt_of_le hlen hr2))]
        · rw [if_neg hc, if_neg hc]
          exact ih f2 rest hr hr2

/-- Appending close-brace-free text to the input does not change the scan
result (with enough fuel for the longer input). -/
theorem scanF_append_no_close :
    ∀ (f : Nat) (p r : List Char), p.length + r.length ≤ f → '}' ∉ r →
      scanF findCloseBrace f (p ++ r) = scanF findCloseBrace p.length p := by
  intro f
  induction f with
  | zero =>
    intro p r h _
    have hp : p = [] := List.eq_nil_of_length_eq_zero (by omega)
    have hr : r = [] := List.eq_nil_of_length_eq_zero (by omega)
    subst hp; subst hr; rfl
  | succ f ih =>
    intro p r h hnr
    cases p with
    | nil =>
      simp only [List.nil_append, List.length_nil]
      rw [scanF_no_close (f + 1) r hnr]
      rfl
    | cons c p2 =>
      have hlen : p2.length + r.length ≤ f := by
        simp only [List.length_cons] at h; omega
      simp only [List.cons_append, List.length_cons, scanF, List.append_eq]
      rw [findCloseBrace_append p2 r hnr]
      by_cases hc : c = '{'
      · rw [if_pos hc, if_pos hc]
        cases hrec : findCloseBrace p2 with
        | none => exact ih p2 r hlen hnr
        | some q =>
          obtain ⟨i, r2⟩ := q
          have hl2 : r2.length < p2.length := findCloseBrace_length hrec
          have ih2 := ih r2 r (by omega) hnr
          dsimp only
          rw [ih2, scanF_congr r2.length p2.length r2 (Nat.le_refl _) (Nat.le_of_lt hl2)]
      · rw [if_neg hc, if_neg hc]
        exact ih p2 r hlen hnr

/-- String concatenation is associative. -/
theorem string_append_assoc (a b c : String) : (a ++ b) ++ c = a ++ (b ++ c) := by
  apply String.ext
  simp [String.data_append, List.append_assoc]

/-- The computed template path, spelled out. -/
theorem templatePath_eq (template_name : String) :
    templatePath template_name = ("templates/template_") ++ template_name ++ (".txt") := by
  have hd : ((("template_") ++ template_name ++ (".txt")).data.head?) = some 't' := by
    rw [String.data_append, String.data_append]
    rfl
  have h1 : ¬(((("template_") ++ template_name ++ (".txt")).data.head?) = some '/') := by
    rw [hd]; decide
  have h2 : ¬(TEMPLATES_ROOT_PATH.data = [] ∨ TEMPLATES_ROOT_PATH.data.getLast? = some '/') := by
    decide
  unfold templatePath os_path_join
  rw [if_neg h1, if_neg h2]
  rw [← string_append_assoc (TEMPLATES_ROOT_PATH ++ ("/")) (("template_") ++ template_name)
    (".txt")]
  rw [← string_append_assoc (TEMPLATES_ROOT_PATH ++ ("/")) ("template_") template_name]
  rw [show (TEMPLATES_ROOT_PATH ++ ("/")) ++ ("template_") = ("templates/template_") from rfl]

/-- A nonempty optional string is truthy. -/
theorem truthy_some {s : String} (h : s ≠ ("")) : truthy (some s) = true := by
  simp [truthy, h]

/-- With a truthy name, `get_prompt` is the load branch. -/
theorem get_prompt_name_branch (fs : FS) (id : String) (hid : id ≠ (""))
    (txt : Option String) :
    get_prompt fs (some id) txt =
      (match _load_template fs id with
       | (Except.ok t, logs) => (Except.ok (mkChatPrompt t), logs)
       | (Except.error e, logs) => (Except.error (liftReadError e), logs)) := by
  unfold get_prompt
  rw [truthy_some hid]
  simp [Option.getD]

/-- Claim C1, counterexample: on a template whose braces enclose a newline
there is one minimal brace-delimited span (inner text `a`, newline, `b`), but
the extraction returns an empty placeholder list, because Python's `.` does
not match a newline. -/
theorem C1_newline_counterexample :
    _extract_input_variables (String.mk ['{', 'a', '\n', 'b', '}']) = [] ∧
    spec_minimal_spans (String.mk ['{', 'a', '\n', 'b', '}']) =
      [String.mk ['a', '\n', 'b']] := by
  exact ⟨by decide, by decide⟩

/-- Claim C1 (amended): for every template string containing no newline
character, the placeholder list produced by extraction is exactly the list of
inner texts of the minimal brace-delimited spans, in left-to-right scan order,
preserving duplicates and empty names; spans that would enclose a newline are
not matched. -/
theorem C1_extract_eq_minimal_spans (t : String) (h : '\n' ∉ t.data) :
    _extract_input_variables t = spec_minimal_spans t := by
  unfold _extract_input_variables reFindall spec_minimal_spans
  exact scanF_spec_eq t.data.length t.data h

/-- Claim C1, witness at the concrete template of the claim. -/
theorem C1_extract_eq_minimal_spans_witness :
    '\n' ∉ ("{a}{a}{}").data ∧
    _extract_input_variables ("{a}{a}{}") = [("a"), ("a"), ("")] := by
  refine ⟨by decide, ?_⟩
  rw [C1_extract_eq_minimal_spans ("{a}{a}{}") (by decide)]
  decide

/-- Claim C2, counterexample: at the empty literal template string, resolution
raises the ValueError instead of returning a Prompt whose stored template text
is the empty string. -/
theorem C2_empty_literal_counterexample :
    get_prompt fsNone none (some ("")) =
      (Except.error (PromptError.invalidArgument
        ("Either template_name or template must be provided.")), []) := by
  decide

/-- Claim C2 (amended): for every nonempty literal template string t,
resolving with literal text t and no identifier returns a Prompt whose stored
template text equals t exactly, with no normalization, no log output, and the
message structure wrapping t as a single human turn. -/
theorem C2_literal_text (fs : FS) (t : String) (h : t ≠ ("")) :
    get_prompt fs none (some t) = (Except.ok (mkChatPrompt t), []) ∧
    (mkChatPrompt t).messages = [⟨⟨t, _extract_input_variables t⟩⟩] := by
  constructor
  · simp [get_prompt, truthy, h]
  · rfl

/-- Claim C2, witness at a concrete nonempty literal. -/
theorem C2_literal_text_witness :
    ("hi {x}" : String) ≠ ("") ∧
    get_prompt fsNone none (some ("hi {x}")) =
      (Except.ok (mkChatPrompt ("hi {x}")), []) := by
  refine ⟨by decide, ?_⟩
  exact (C2_literal_text fsNone ("hi {x}") (by decide)).1

/-- Claim C3 (confirmed): calling resolve with neither an identifier nor
literal text fails with the ValueError carrying the message that either an
identifier or literal text must be provided; no Prompt is produced and no log
is emitted. -/
theorem C3_no_arguments_invalid (fs : FS) :
    get_prompt fs none none =
      (Except.error (PromptError.invalidArgument
        ("Either template_name or template must be provided.")), []) := rfl

/-- Claim C3, witness at a concrete filesystem. -/
theorem C3_no_arguments_invalid_witness :
    get_prompt fsNone none none =
      (Except.error (PromptError.invalidArgument
        ("Either template_name or template must be provided.")), []) :=
  C3_no_arguments_invalid fsNone

/-- Claim C4, counterexample: with the empty-string identifier and literal
text both supplied, and the identifier's file existing with content FILE,
resolution returns the literal text x, not the file content. -/
theorem C4_empty_identifier_counterexample :
    fsEmptyId.read (templatePath ("")) = Except.ok ("FILE") ∧
    get_prompt fsEmptyId (some ("")) (some ("x")) =
      (Except.ok (mkChatPrompt ("x")), []) ∧
    mkChatPrompt ("x") ≠ mkChatPrompt ("FILE") := by
  refine ⟨by decide, by decide, by decide⟩

/-- Claim C4 (amended): when a nonempty identifier and literal text are both
supplied, the identifier takes precedence: the result equals that of the same
call without literal text, and whenever the identifier's file is readable its
content is the stored template text. -/
theorem C4_identifier_precedence (fs : FS) (id : String) (txt : Option String)
    (hid : id ≠ ("")) :
    get_prompt fs (some id) txt = get_prompt fs (some id) none ∧
    (∀ content, fs.read (templatePath id) = Except.ok content →
      get_prompt fs (some id) txt =
        (Except.ok (mkChatPrompt content),
         [⟨LogLevel.info, ("Template ") ++ id ++ (" loaded successfully.")⟩])) := by
  constructor
  · rw [get_prompt_name_branch fs id hid txt, get_prompt_name_branch fs id hid none]
  · intro content hread
    rw [get_prompt_name_branch fs id hid txt]
    unfold _load_template
    rw [hread]

/-- Claim C4, witness: the greeting file wins over a supplied literal. -/
theorem C4_identifier_precedence_witness :
    get_prompt fsGreet (some ("greet")) (some ("ignored")) =
      (Except.ok (mkChatPrompt ("Hello {name}, welcome to {place}!")),
       [⟨LogLevel.info, ("Template greet loaded successfully.")⟩]) := by
  have h := (C4_identifier_precedence fsGreet ("greet") (some ("ignored")) (by decide)).2
    ("Hello {name}, welcome to {place}!") (by decide)
  exact h.trans (by decide)

/-- Claim C5 (confirmed): a failing read surfaces from the loader as the same
error unchanged, after emitting exactly one error log record whose message
matches the failure kind (file-not-found vs any other read failure), and an
identifier-based get_prompt call re-raises it to the caller. -/
theorem C5_load_error_propagation (fs : FS) (name : String) (e : ReadError)
    (h : fs.read (templatePath name) = Except.error e) :
    _load_template fs name =
      (Except.error e, [⟨LogLevel.error, loadFailureLog name e⟩]) ∧
    (name ≠ ("") → ∀ txt, (get_prompt fs (some name) txt).1 =
      Except.error (liftReadError e)) := by
  cases e with
  | notFound =>
    constructor
    · unfold _load_template
      rw [h]
      rfl
    · intro hname txt
      rw [get_prompt_name_branch fs name hname txt]
      unfold _load_template
      rw [h]
  | ioError m =>
    constructor
    · unfold _load_template
      rw [h]
      rfl
    · intro hname txt
      rw [get_prompt_name_branch fs name hname txt]
      unfold _load_template
      rw [h]

/-- Claim C5, witness: a non-notFound read failure and a missing file, each
logged and re-raised unchanged. -/
theorem C5_load_error_propagation_witness :
    _load_template fsBadRead ("cfg") =
      (Except.error (ReadError.ioError ("disk failure")),
       [⟨LogLevel.error, ("Error loading template cfg: disk failure")⟩]) ∧
    (get_prompt fsBadRead (some ("cfg")) none).1 =
      Except.error (PromptError.ioError ("disk failure")) ∧
    _load_template fsNone ("missing") =
      (Except.error ReadError.notFound,
       [⟨LogLevel.error, ("Template file not found: templates/template_missing.txt")⟩]) := by
  have h1 := C5_load_error_propagation fsBadRead ("cfg")
    (ReadError.ioError ("disk failure")) rfl
  have h2 := C5_load_error_propagation fsNone ("missing") ReadError.notFound rfl
  exact ⟨h1.1.trans (by decide), (h1.2 (by decide) none).trans (by decide),
    h2.1.trans (by decide)⟩

/-- Claim C6 (confirmed): resolution for identifier id reads exactly the file
at the path obtained by joining the templates root with
template_<id>.txt — the outcome depends only on the filesystem's content at
that path — and a successful read's full content is the returned template
text. -/
theorem C6_reads_exact_path (fs : FS) (id : String) :
    templatePath id = ("templates/template_") ++ id ++ (".txt") ∧
    (∀ content, fs.read (templatePath id) = Except.ok content →
      (_load_template fs id).1 = Except.ok content) ∧
    (∀ fs2 : FS, fs2.read (templatePath id) = fs.read (templatePath id) →
      _load_template fs2 id = _load_template fs id) := by
  refine ⟨templatePath_eq id, ?_, ?_⟩
  · intro content h
    unfold _load_template
    rw [h]
  · intro fs2 h
    unfold _load_template
    rw [h]

/-- Claim C6, witness at the greeting fixture. -/
theorem C6_reads_exact_path_witness :
    (_load_template fsGreet ("greet")).1 =
      Except.ok ("Hello {name}, welcome to {place}!") :=
  (C6_reads_exact_path fsGreet ("greet")).2.1
    ("Hello {name}, welcome to {place}!") (by decide)

/-- Claim C7 (confirmed): an empty-string literal template with no identifier
behaves identically to supplying no text at all and fails with the
ValueError instead of yielding a zero-placeholder Prompt. -/
theorem C7_empty_literal_invalid (fs : FS) :
    get_prompt fs none (some ("")) = get_prompt fs none none ∧
    get_prompt fs none (some ("")) =
      (Except.error (PromptError.invalidArgument
        ("Either template_name or template must be provided.")), []) :=
  ⟨rfl, rfl⟩

/-- Claim C7, witness at a concrete filesystem. -/
theorem C7_empty_literal_invalid_witness :
    get_prompt fsNone none (some ("")) = get_prompt fsNone none none :=
  (C7_empty_literal_invalid fsNone).1

/-- Claim C8 (confirmed): an identifier whose backing file contains the
greeting template resolves to a Prompt with exactly that template text and the
placeholder list made of the names name and place. -/
theorem C8_greeting_example (fs : FS) (id : String) (hid : id ≠ (""))
    (h : fs.read (templatePath id) = Except.ok ("Hello {name}, welcome to {place}!")) :
    get_prompt fs (some id) none =
      (Except.ok ⟨[⟨⟨("Hello {name}, welcome to {place}!"), [("name"), ("place")]⟩⟩]⟩,
       [⟨LogLevel.info, ("Template ") ++ id ++ (" loaded successfully.")⟩]) := by
  rw [get_prompt_name_branch fs id hid none]
  unfold _load_template
  rw [h]
  dsimp only
  rw [show mkChatPrompt ("Hello {name}, welcome to {place}!") =
    (⟨[⟨⟨("Hello {name}, welcome to {place}!"), [("name"), ("place")]⟩⟩]⟩ :
      ChatPromptTemplate) from by decide]

/-- Claim C8, witness at the greeting fixture. -/
theorem C8_greeting_example_witness :
    get_prompt fsGreet (some ("greet")) none =
      (Except.ok ⟨[⟨⟨("Hello {name}, welcome to {place}!"), [("name"), ("place")]⟩⟩]⟩,
       [⟨LogLevel.info, ("Template greet loaded successfully.")⟩]) := by
  exact (C8_greeting_example fsGreet ("greet") (by decide) (by decide)).trans (by decide)

/-- Claim C9 (confirmed): the empty-string identifier is treated as absent:
with nonempty literal text the literal drives resolution, the result is
independent of the filesystem (no file access), and no log is emitted. -/
theorem C9_empty_identifier_literal (fs : FS) (t : String) (h : t ≠ ("")) :
    get_prompt fs (some ("")) (some t) = (Except.ok (mkChatPrompt t), []) ∧
    get_prompt fs (some ("")) (some t) = get_prompt fsNone (some ("")) (some t) := by
  constructor
  · simp [get_prompt, truthy, h]
  · simp [get_prompt, truthy]

/-- Claim C9, witness on the all-reads-fail filesystem. -/
theorem C9_empty_identifier_literal_witness :
    get_prompt fsNone (some ("")) (some ("{q}")) =
      (Except.ok (mkChatPrompt ("{q}")), []) :=
  (C9_empty_identifier_literal fsNone ("{q}") (by decide)).1

/-- Claim C10 (confirmed): extraction is a total function on strings, and an
opening brace that is never followed by a matching closing brace contributes
no entry: appending any close-brace-free text leaves the placeholder list
unchanged, and such text alone yields the empty list. -/
theorem C10_unclosed_brace (p r : String) (h : '}' ∉ r.data) :
    _extract_input_variables (p ++ r) = _extract_input_variables p ∧
    _extract_input_variables r = [] := by
  constructor
  · unfold _extract_input_variables reFindall
    rw [String.data_append, List.length_append]
    exact scanF_append_no_close (p.data.length + r.data.length) p.data r.data
      (Nat.le_refl _) h
  · unfold _extract_input_variables reFindall
    exact scanF_no_close r.data.length r.data h

/-- Claim C10, witness: a dangling open brace adds nothing. -/
theorem C10_unclosed_brace_witness :
    '}' ∉ (String.mk ['{', 'b', 'c']).data ∧
    _extract_input_variables (("{a}") ++ String.mk ['{', 'b', 'c']) = [("a")] := by
  refine ⟨by decide, ?_⟩
  rw [(C10_unclosed_brace ("{a}") (String.mk ['{', 'b', 'c']) (by decide)).1]
  decide

end Prompts
